import Mathlib

/-!
Shallow embedding of `probe_accuracy_test_suite.py` (klipper probe accuracy
test suite) and proofs about the claims of its specification.

Conventions used throughout:
* Python floats are modelled as `ℚ`; machine rounding is irrelevant to every
  property treated here (all are structural: orderings, counts, field
  selection, sign capture).
* Log messages are modelled as `List Char` (the script only ever inspects
  them with `startswith` and `re.findall`).
* Fallible Python code (exceptions, `sys.exit`) is modelled with explicit
  outcome types.
-/

namespace ProbeAccuracy

/-! ## Numeric extraction: `re.findall(r"[\d.]+", msg)` and `float(...)`

The script extracts numbers from log lines and configuration strings with
`re.findall(r"[\d.]+", s)`: the maximal runs of characters drawn from
`0-9` and `.`, in appearance order.  Each token is then converted with
Python's `float`. -/

/-- Characters matched by the character class `[\d.]`. -/
def isNumChar (c : Char) : Bool := c.isDigit || c == '.'

/-- Worker for `numRuns`: `acc` holds the (reversed) run in progress. -/
def numRunsAux : List Char → List Char → List (List Char)
  | [], acc => if acc.isEmpty then [] else [acc.reverse]
  | c :: cs, acc =>
    if isNumChar c then numRunsAux cs (c :: acc)
    else if acc.isEmpty then numRunsAux cs []
    else acc.reverse :: numRunsAux cs []

/-- Python `re.findall(r"[\d.]+", s)`: maximal runs of digits/periods, in order. -/
def numRuns (s : List Char) : List (List Char) := numRunsAux s []

/-- Value of a digit string (most significant first). -/
def digitsVal (s : List Char) : ℕ :=
  s.foldl (fun acc c => acc * 10 + (c.toNat - '0'.toNat)) 0

/-- Powers of ten, kept as a plain recursive definition so that kernel
evaluation is cheap. -/
def pow10 : ℕ → ℕ
  | 0 => 1
  | n + 1 => 10 * pow10 n

/-- Python's `float` restricted to the tokens `re.findall(r"[\d.]+", ·)` can
produce: digit runs with at most one period (`"1."`, `".5"`, `"1.5"`,
`"15"` are accepted; `"."` and `"1.2.3"` raise `ValueError`, modelled as
`none`). -/
def parseDecimal (s : List Char) : Option ℚ :=
  let dots := s.count '.'
  if dots = 0 then
    if !s.isEmpty && s.all Char.isDigit then some (mkRat (digitsVal s) 1) else none
  else if dots = 1 then
    let a := s.takeWhile (fun c => c ≠ '.')
    let b := (s.dropWhile (fun c => c ≠ '.')).tail
    if (!a.isEmpty || !b.isEmpty) && a.all Char.isDigit && b.all Char.isDigit then
      some (mkRat (digitsVal a * pow10 b.length + digitsVal b) (pow10 b.length))
    else none
  else none

/-- Python `[float(k) for k in re.findall(r"[\d.]+", msg)]`; `none` models the
`ValueError` raised when some token is not a valid float literal. -/
def extractNumbers (s : List Char) : Option (List ℚ) :=
  (numRuns s).mapM parseDecimal

/-! ## Data model: `Sample`, log entries, acquisition outcomes -/

/-- One row of the dataframe built in `Test_suite._test_probe`:
`{"test": testname, "sample_index": i, "x": x, "y": y, "z": z}`. -/
structure Sample where
  test : String
  sampleIndex : ℕ
  x : ℚ
  y : ℚ
  z : ℚ
deriving DecidableEq

/-- One entry of the moonraker gcode store: `{time, message}`. -/
structure LogEntry where
  time : ℚ
  message : List Char
deriving DecidableEq

/-- How an acquisition (`Test_suite._test_probe`) can end:
`ok` returns a dataframe to the caller, `sysExit` is `sys.exit(code)`,
`uncaught exc` is a Python exception that no handler in the program
catches (it propagates out of `main` and terminates the interpreter). -/
inductive ProbeOutcome where
  | ok (data : List Sample)
  | sysExit (code : ℕ)
  | uncaught (exc : String)
deriving DecidableEq

/-- Result of `_test_probe` together with what it printed. -/
structure ProbeResult where
  printed : List (List Char)
  outcome : ProbeOutcome
deriving DecidableEq

/-- Is the outcome a normal return? -/
def isOk : ProbeOutcome → Bool
  | ProbeOutcome.ok _ => true
  | _ => false

/-- Marker of controller error lines: `x["message"].startswith("!!")`. -/
def errMarker : List Char := "!!".toList

/-- Marker of probe sample lines:
`x["message"].startswith("// probe at")`. -/
def sampleMarker : List Char := "// probe at".toList

/-- Python `[x for x in raw if x["time"] > start_time]`. -/
def respAfter (start : ℚ) (raw : List LogEntry) : List LogEntry :=
  raw.filter (fun e => decide (start < e.time))

/-- Error messages of the tailed window (step 5 of the protocol). -/
def errMsgs (start : ℚ) (raw : List LogEntry) : List (List Char) :=
  (respAfter start raw).filterMap
    (fun e => if errMarker.isPrefixOf e.message then some e.message else none)

/-- Sample messages of the tailed window (step 5 of the protocol). -/
def sampleMsgs (start : ℚ) (raw : List LogEntry) : List (List Char) :=
  (respAfter start raw).filterMap
    (fun e => if sampleMarker.isPrefixOf e.message then some e.message else none)

/-- Parse one sample line (the body of the `for i, msg in enumerate(msgs)`
loop): extract all numbers; Beacon-family probes unpack
`x, y, _, z = ...` (exactly 4 fields, third ignored), all others unpack
`x, y, z = ...` (exactly 3 fields).  `none` models the `ValueError`
raised by `float` or by tuple unpacking. -/
def mkSample (beacon : Bool) (test : String) (i : ℕ) (msg : List Char) : Option Sample :=
  (extractNumbers msg).bind (fun vals =>
    if beacon then
      match vals with
      | [x, y, _, z] => some ⟨test, i, x, y, z⟩
      | _ => none
    else
      match vals with
      | [x, y, z] => some ⟨test, i, x, y, z⟩
      | _ => none)

/-- Worker for `parseSamples`; `i` is the running `enumerate` index. -/
def parseSamplesAux (beacon : Bool) (test : String) : ℕ → List (List Char) → Option (List Sample)
  | _, [] => some []
  | i, m :: ms =>
    (mkSample beacon test i m).bind (fun s =>
      (parseSamplesAux beacon test (i + 1) ms).map (fun rest => s :: rest))

/-- Steps 7 of the protocol: one `Sample` per sample line, `sample_index`
equal to the line's 0-based position among the sample lines. -/
def parseSamples (beacon : Bool) (test : String) (msgs : List (List Char)) : Option (List Sample) :=
  parseSamplesAux beacon test 0 msgs

/-- Printed header preceding error lines. -/
def errHeader : List Char :=
  "\nSomething's wrong with probe_accuracy! Klipper response:".toList

/-- First line printed on the zero-sample fatal path. -/
def noMeasureMsg1 : List Char := "\nNo measurements collected".toList

/-- Second line printed on the zero-sample fatal path. -/
def noMeasureMsg2 : List Char := "Exiting!".toList

/-- Embedding of `Test_suite._test_probe`, from issuing `PROBE_ACCURACY` onwards, as a
function of the tailed gcode store.

Parameters: `beacon` is `self.printer.probe.isBeacon`; `dropF` is the
truthiness of `self.printer.config["probe"].get("drop_first_result")`
(`False` when the lookup raises); `keepF` is the `keep_first` parameter
of `_test_probe` (note: the CLI flag `--keep_first` is stored on the
suite as `self.keep_first` but never forwarded to this parameter);
`start` is the watermark `start_time`; `raw` the window returned by
`get_gcode_store(count = 1000)`.

Faithful control flow of the source:
1. keep entries newer than the watermark, split into error lines
   (`startswith("!!")`) and sample lines (`startswith("// probe at")`);
2. if there are error lines, print the header, print the first error
   line, and call `self.printer.probe.check_error(msg)`.  `check_error`
   is declared `def check_error(msg):` inside `class Probe` *without*
   `self`, so this bound-method call passes two arguments to a
   one-parameter function and raises `TypeError` before the body runs;
   nothing catches it (`main` catches only `KeyboardInterrupt`), so the
   process dies.  (Had the call bound correctly, the body would compare
   against the undefined name `msgs` — `NameError` — and its intended
   unknown-error branch calls `sys.exit(1)`.)
3. otherwise parse each sample line in order (a `float`/unpack failure is
   an uncaught `ValueError`);
4. `if len(data) == 0: sys.exit(1)` — note this runs *before* the
   drop-first policy;
5. `if printer_config_drop_first and not keep_first: data.pop(0)`. -/
def test_probe (beacon dropF keepF : Bool) (test : String) (start : ℚ)
    (raw : List LogEntry) : ProbeResult :=
  if (errMsgs start raw).isEmpty then
    match parseSamples beacon test (sampleMsgs start raw) with
    | none => ⟨[], ProbeOutcome.uncaught "ValueError"⟩
    | some data =>
      if data.isEmpty then
        ⟨[noMeasureMsg1, noMeasureMsg2], ProbeOutcome.sysExit 1⟩
      else
        ⟨[], ProbeOutcome.ok (if dropF && !keepF then data.drop 1 else data)⟩
  else
    ⟨[errHeader, (errMsgs start raw).headD []], ProbeOutcome.uncaught "TypeError"⟩

/-! ## Bed geometry: `Printer._get_bed_center`, `Printer._get_bed_corners` -/

/-- Embedding of `Printer._get_bed_center`: queries `toolhead.axis_minimum` /
`toolhead.axis_maximum` (first two components) and returns the
`numpy.mean` of each axis pair. -/
def get_bed_center (axisMin axisMax : ℚ × ℚ) : ℚ × ℚ :=
  ((axisMin.1 + axisMax.1) / 2, (axisMin.2 + axisMax.2) / 2)

/-- Embedding of `Printer._get_bed_corners`, from the mesh-bound extraction onwards.
`xoff`/`yoff` are the probe offsets resolved by the preceding
`try`/`except` ladder over the `probe`/`idm`/`cartographer`/`beacon`
config sections.  NOTE: that ladder is not modelled because it is not
valid Python — line 367 of the source has `except:` indented *inside*
the body of its `try:`, which is a `SyntaxError`, so the module as
shipped cannot even be imported.  The arithmetic below (lines 372-382)
is the syntactically unambiguous remainder of the function:
`xmin, ymin = re.findall(r"[\d.]+", config["bed_mesh"]["mesh_min"])`
(`none` models the `ValueError` when the string does not hold exactly
two numbers), the same for `mesh_max`, then each bound minus the
offset, returned in the fixed order
`[(xmin, ymax), (xmax, ymax), (xmin, ymin), (xmax, ymin)]`. -/
def get_bed_corners (xoff yoff : ℚ) (meshMin meshMax : List Char) :
    Option (List (ℚ × ℚ)) :=
  match numRuns meshMin, numRuns meshMax with
  | [sxmin, symin], [sxmax, symax] =>
    match parseDecimal sxmin, parseDecimal symin, parseDecimal sxmax, parseDecimal symax with
    | some xmin, some ymin, some xmax, some ymax =>
      some [(xmin - xoff, ymax - yoff), (xmax - xoff, ymax - yoff),
            (xmin - xoff, ymin - yoff), (xmax - xoff, ymin - yoff)]
    | _, _, _, _ => none
  | _, _ => none

/-! ## Probe variant detection: `Probe._detect` -/

/-- The four detection flags set by `Probe.__init__` / `Probe._detect`. -/
structure ProbeFlags where
  isKlicky : Bool
  isKlippain : Bool
  isTap : Bool
  isBeacon : Bool
deriving DecidableEq

/-- All flags false (no supported probe detected). -/
def noneFlags : ProbeFlags := ⟨false, false, false, false⟩

/-- Embedding of `Probe.is_present`. -/
def is_present (f : ProbeFlags) : Bool :=
  f.isKlicky || f.isKlippain || f.isTap || f.isBeacon

/-- Number of detection flags that are set. -/
def flagCount (f : ProbeFlags) : ℕ :=
  (if f.isKlicky then 1 else 0) + (if f.isKlippain then 1 else 0)
    + (if f.isTap then 1 else 0) + (if f.isBeacon then 1 else 0)

/-- What the controller answers to the lookups `_detect` performs.  Each
field is `none` when the corresponding Python lookup raises (missing
object / missing key / `None` subscripted), mirroring the bare
`except:` handlers:

* `docklocation_x`: truthiness of
  `query("gcode_macro _User_Variables")["docklocation_x"]`;
* `probe_type_enabled`: value of
  `query("gcode_macro _USER_VARIABLES")["probe_type_enabled"]`;
* `idm_backlash` / `beacon_backlash` / `cartographer_backlash`:
  truthiness of `config[section].get("backlash_comp", 0)`; `none` means
  `config[section]` itself raised (section absent), `some false` means
  the section exists but the value is falsy (e.g. key absent, default
  `0`);
* `endstop_pin`: `config["stepper_z"]["endstop_pin"]`. -/
structure DetectConfig where
  docklocation_x : Option Bool
  probe_type_enabled : Option String
  idm_backlash : Option Bool
  beacon_backlash : Option Bool
  cartographer_backlash : Option Bool
  endstop_pin : Option String
deriving DecidableEq

/-- Whitespace characters matched by Python's `\s`. -/
def pyWS (c : Char) : Bool :=
  c == ' ' || c == '\t' || c == '\n' || c == '\r' || c == '\x0b' || c == '\x0c'

/-- Does `probe:\s*z_virtual_endstop` match at the head of `s`?  (The
`\s*` is greedy, and the following literal starts with a
non-whitespace character, so dropping all leading whitespace after
`probe:` is exact.) -/
def tapPinHere (s : List Char) : Bool :=
  "probe:".toList.isPrefixOf s
    && "z_virtual_endstop".toList.isPrefixOf ((s.drop 6).dropWhile pyWS)

/-- Python `re.search("probe:\s*z_virtual_endstop", pin)`: match at any position. -/
def tapPinMatch : List Char → Bool
  | [] => tapPinHere []
  | c :: cs => tapPinHere (c :: cs) || tapPinMatch cs

/-- The nested `try`/`except` ladder of `_detect` that follows the Klicky
and Klippain checks.  Its structure is crucial: the `beacon`,
`cartographer` and Tap checks live inside the `except:` handlers, so
they run only when the previous section *lookup raised*.  A section
that exists with a falsy `backlash_comp` ends detection with no flags
set. -/
def detectBeaconChain (c : DetectConfig) : ProbeFlags :=
  match c.idm_backlash with
  | some b => if b then ⟨false, false, false, true⟩ else noneFlags
  | none =>
    match c.beacon_backlash with
    | some b => if b then ⟨false, false, false, true⟩ else noneFlags
    | none =>
      match c.cartographer_backlash with
      | some b => if b then ⟨false, false, false, true⟩ else noneFlags
      | none =>
        match c.endstop_pin with
        | some pin => if tapPinMatch pin.toList then ⟨false, false, true, false⟩ else noneFlags
        | none => noneFlags

/-- Embedding of `Probe._detect`: Klicky (truthy `docklocation_x`) returns first;
then Klippain (`probe_type_enabled` truthy and equal to `"dockable"`);
then the Beacon-family/Tap ladder. -/
def detect (c : DetectConfig) : ProbeFlags :=
  match c.docklocation_x with
  | some true => ⟨true, false, false, false⟩
  | _ =>
    match c.probe_type_enabled with
    | some s =>
      if s ≠ "" ∧ s = "dockable" then ⟨false, true, false, false⟩
      else detectBeaconChain c
    | none => detectBeaconChain c

/-- Modelled from the words of claim C10 (and spec §4.2), for comparison
with `detect`: attempt each heuristic in a fixed priority order —
Klicky, Klippain, Beacon-family (any of the three sections with a
non-zero backlash value), Tap — treating an individual heuristic
failure as "no match" and moving on to the next; `noneFlags` when none
match. -/
def detectSpec (c : DetectConfig) : ProbeFlags :=
  if c.docklocation_x = some true then ⟨true, false, false, false⟩
  else if c.probe_type_enabled = some "dockable" then ⟨false, true, false, false⟩
  else if c.idm_backlash = some true ∨ c.beacon_backlash = some true
      ∨ c.cartographer_backlash = some true then ⟨false, false, false, true⟩
  else if (match c.endstop_pin with
           | some pin => tapPinMatch pin.toList
           | none => false) then ⟨false, false, true, false⟩
  else noneFlags

/-- The gate at the top of `main`: `if not printer.probe.is_present():`
print an error and `sys.exit(1)`; homing/moving (`conditional_home`,
`move_center`) happen only in the `elif`/`else` branches, i.e. after
this gate passes. `some code` models `sys.exit(code)`. -/
def mainGate (f : ProbeFlags) : Option ℕ :=
  if is_present f then none else some 1

/-! ## Motion helper: `Printer.move`, `Printer._move`, `Printer._move_to_safe_z` -/

/-- Gcode commands emitted by `Printer._move`: `G90` (absolute mode) and
`G0` with optional `X`/`Y`/`Z`/`F` words. -/
inductive GCmd where
  | g90
  | g0 (x y z f : Option ℚ)
deriving DecidableEq

/-- Python truthiness of an optional float (`None` and `0.0` are falsy). -/
def pyTruthy (o : Option ℚ) : Bool :=
  match o with
  | some v => decide (v ≠ 0)
  | none => false

/-- Configuration consulted by `Printer._move_to_safe_z`:
`flags` is the detected probe variant; `klicky_safe_z` is
`query("gcode_macro _User_Variables", "safe_z")`; `klippain_min_z` is
`query("gcode_macro _USER_VARIABLES", "probe_min_z_travel")`; `z_hop`
is `settings.get("safe_z_home", {}).get("z_hop", None)`;
`prompt_safe_z` is the height the operator enters at the interactive
`input("Enter safe z height to avoid crash:")` fallback (the numeric
value of the reply). -/
structure PrinterCfg where
  flags : ProbeFlags
  klicky_safe_z : Option ℚ
  klippain_min_z : Option ℚ
  z_hop : Option ℚ
  prompt_safe_z : ℚ
deriving DecidableEq

/-- Mutable printer state relevant here: the memoized `self.safe_z`
(initialized to `None` in `Printer.__init__`). -/
structure PState where
  safe_z : Option ℚ
deriving DecidableEq

/-- Variant-specific safe-height source consulted when `self.safe_z` is
falsy, in the source's `if`/`elif` order. -/
def variantSafeZ (cfg : PrinterCfg) : Option ℚ :=
  if cfg.flags.isKlicky then cfg.klicky_safe_z
  else if cfg.flags.isKlippain then cfg.klippain_min_z
  else if cfg.flags.isTap then cfg.z_hop
  else if cfg.flags.isBeacon then some 2
  else none

/-- Safe-z resolution of `Printer._move_to_safe_z`: if the memo
`self.safe_z` is truthy it is reused; otherwise the variant source is
consulted and, if that is falsy too, the interactive prompt supplies
the height; the result is stored back into `self.safe_z`. -/
def resolve_safe_z (cfg : PrinterCfg) (st : PState) : ℚ × PState :=
  if pyTruthy st.safe_z then (st.safe_z.getD 0, st)
  else
    let z1 := variantSafeZ cfg
    let z2 := if pyTruthy z1 then z1.getD 0 else cfg.prompt_safe_z
    (z2, ⟨some z2⟩)

/-- Embedding of `Printer._move`: emits `G90` then one `G0` carrying the
words that were given. -/
def pyMove (x y z f : Option ℚ) : List GCmd := [GCmd.g90, GCmd.g0 x y z f]

/-- Embedding of `Printer._move_to_safe_z`: resolve the safe height and
command `self._move(z = self.safe_z)`. -/
def move_to_safe_z (cfg : PrinterCfg) (st : PState) : List GCmd × PState :=
  let r := resolve_safe_z cfg st
  (pyMove none none (some r.1) none, r.2)

/-- Embedding of `Printer.move`: `if not z: self._move_to_safe_z()`, then
`self._move(x, y, z, feedrate)` (default feedrate `99999`).  The guard
uses Python truthiness, so both `z=None` and `z=0` detour through the
safe height first. -/
def move (cfg : PrinterCfg) (st : PState) (x y z : Option ℚ)
    (f : Option ℚ := some 99999) : List GCmd × PState :=
  if pyTruthy z then (pyMove x y z f, st)
  else
    let r := move_to_safe_z cfg st
    (r.1 ++ pyMove x y z f, r.2)

/-- Check of the safety invariant over an emitted command sequence,
tracking the commanded z position (`none` = still unknown): every `G0`
that carries an `X` or `Y` word must execute at a known height that is
at least `safe`. -/
def checkLateral (safe : ℚ) : Option ℚ → List GCmd → Bool
  | _, [] => true
  | cur, GCmd.g90 :: rest => checkLateral safe cur rest
  | cur, GCmd.g0 x y z _ :: rest =>
    let newZ := match z with
      | some zz => some zz
      | none => cur
    if x.isSome || y.isSome then
      (match newZ with
       | some h => decide (safe ≤ h)
       | none => false) && checkLateral safe newZ rest
    else checkLateral safe newZ rest

/-! ## Scenario engine: `Test_suite.test_repeatability` -/

/-- Zero-padded two-digit rendering, Python's `f"{n:02d}"` for `n < 100`. -/
def pad2 (n : ℕ) : String :=
  if n < 10 then "0" ++ toString n else toString n

/-- Observable events of one repeatability scenario:
random-location moves (`Printer.move_random`), `M117` status gcodes,
and acquisitions (`_test_probe` calls, which internally move to the bed
center first) carrying the probe count, the `testname` argument and the
`measurement` label stamped onto the dataframe. -/
inductive RepEvent where
  | moveRandom
  | m117 (msg : String)
  | acquire (count : ℕ) (testname measurement : String)
deriving DecidableEq

/-- Embedding of `Test_suite.test_repeatability` (default
`probe_count = 10`) as its event trace.  Faithful to the source's
control flow, including its inner-loop placement: the outer loop index
and the inner loop index are BOTH named `i`, and the `_test_probe`
call sits INSIDE the inner `for i in range(4)` loop, so every round
issues 4 alternating move/acquire pairs and all labels use the inner
index.  (Console prints and the final unlock/summary/plot calls are
not part of the trace.) -/
def test_repeatability (reps : ℕ) (probeCount : ℕ) : List RepEvent :=
  (List.range reps).flatMap (fun r =>
    RepEvent.m117 (toString (r + 1) ++ "/" ++ toString reps ++ " repeatability")
      :: (List.range 4).flatMap (fun i =>
        [RepEvent.moveRandom,
         RepEvent.acquire probeCount
           (pad2 (i + 1) ++ ": center " ++ toString probeCount ++ " samples")
           ("Test #" ++ pad2 (i + 1))]))

/-! ## Scenario engine: `Test_suite.test_speedtest` and `Test_suite.run` -/

/-- Embedding of `Test_suite._speedcheck` plus the surrounding `try`:
`true` means the checks pass and the scenario proceeds.  The three
`assert`s reject `step ≤ 0`, `start < 1`, `stop < start`; for
`stop ≥ 35` the confirmation loop re-prompts until the operator answers
`y` or `n`, and `n` triggers `assert False`.  `confirm` is the
operator's eventual `y`/`n` answer (`true` = `y`); an operator who
never answers either would keep the loop spinning forever, which has
no terminating counterpart and is outside this model. -/
def speedcheck (start stop step : ℚ) (confirm : Bool) : Bool :=
  decide (0 < step) && decide (1 ≤ start) && decide (start ≤ stop)
    && (!decide ((35 : ℚ) ≤ stop) || confirm)

/-- Python `numpy.arange(start, stop, step)` for `step > 0` over exact
arithmetic: `start + i * step` while below `stop`; the length is
`⌈(stop - start) / step⌉`. -/
def arangeQ (start stop step : ℚ) : List ℚ :=
  (List.range (⌈(stop - start) / step⌉.toNat)).map (fun i => start + step * (i : ℚ))

/-- Observable events of the speed-sweep scenario, in emission order. -/
inductive SpeedEvent where
  | levelBed
  | lockProbe
  | unlockProbe
  | m117 (speed : ℚ)
  | acquire (count : ℕ) (speed : ℚ)
deriving DecidableEq

/-- Embedding of `Test_suite.test_speedtest`: read `{start, stop, step}`,
run `_speedcheck`, build `list(numpy.arange(**speedrange))` plus the
exact `stop` appended; any exception in that `try` block (an `assert`
failure, or an unparsable numeric reply — the latter outside this
model) prints "Invalid user input. Exiting..." and calls
`sys.exit(0)`.  The result pairs the emitted events with
`some exitCode` when `sys.exit` was reached — in which case no
leveling, locking, motion or probe command was issued at all. -/
def test_speedtest (forceDock : Bool) (start stop step : ℚ) (confirm : Bool) :
    List SpeedEvent × Option ℕ :=
  if speedcheck start stop step confirm then
    let speeds := arangeQ start stop step ++ [stop]
    ((SpeedEvent.levelBed :: (if forceDock then [] else [SpeedEvent.lockProbe]))
      ++ speeds.flatMap (fun s => [SpeedEvent.m117 s, SpeedEvent.acquire 10 s])
      ++ (if forceDock then [] else [SpeedEvent.unlockProbe]), none)
  else ([], some 0)

/-- Outcome of `Test_suite.run`: either some `sys.exit` escaped it (the
whole program terminates; the suite-level concatenation, summary and
CSV export never execute), or it completed and computed the suite
summary over the testframes of the scenarios that ran. -/
inductive SuiteOutcome where
  | exited (code : ℕ)
  | completed (testframes : ℕ)
deriving DecidableEq

/-- Requested test plan, as consumed by `Test_suite.run` (each scenario
contributes one testframe to `self.testframes`). -/
structure SuitePlan where
  corner : Bool
  repeatability : Bool
  drift : Bool
  speedtest : Bool
  forceDock : Bool
  speedStart : ℚ
  speedStop : ℚ
  speedStep : ℚ
  speedConfirm : Bool
deriving DecidableEq

/-- Embedding of `Test_suite.run` at testframe granularity: scenarios run
in the order corner, repeatability, drift, speedtest; each appends one
testframe; `sys.exit` raised inside `test_speedtest` propagates out of
`run` (only `KeyboardInterrupt` is ever caught, in `main`), so the
suite-level tables are produced only when no scenario exited. -/
def runSuite (p : SuitePlan) : SuiteOutcome :=
  let before := (if p.corner then 1 else 0) + (if p.repeatability then 1 else 0)
    + (if p.drift then 1 else 0)
  if p.speedtest then
    match (test_speedtest p.forceDock p.speedStart p.speedStop p.speedStep p.speedConfirm).2 with
    | some code => SuiteOutcome.exited code
    | none => SuiteOutcome.completed (before + 1)
  else SuiteOutcome.completed before

/-! ## Helper lemmas -/

/-- Every token produced by `numRunsAux` consists of `[\d.]` characters,
provided the run in progress does. -/
theorem numRunsAux_all_num : ∀ (s acc : List Char),
    (∀ c ∈ acc, isNumChar c = true) →
    ∀ tok ∈ numRunsAux s acc, ∀ c ∈ tok, isNumChar c = true := by
  intro s
  induction s with
  | nil =>
    intro acc hacc tok htok c hc
    simp only [numRunsAux] at htok
    split at htok
    · simp at htok
    · simp only [List.mem_singleton] at htok
      subst htok
      exact hacc c (List.mem_reverse.mp hc)
  | cons d ds ih =>
    intro acc hacc tok htok c hc
    simp only [numRunsAux] at htok
    by_cases hd : isNumChar d = true
    · rw [if_pos hd] at htok
      refine ih (d :: acc) ?_ tok htok c hc
      intro e he
      rcases List.mem_cons.mp he with rfl | he
      · exact hd
      · exact hacc e he
    · rw [if_neg hd] at htok
      split at htok
      · exact ih [] (by simp) tok htok c hc
      · rcases List.mem_cons.mp htok with rfl | htok
        · exact hacc c (List.mem_reverse.mp hc)
        · exact ih [] (by simp) tok htok c hc

/-- A successfully parsed sample carries the `enumerate` index it was
built with. -/
theorem mkSample_sampleIndex (beacon : Bool) (test : String) (i : ℕ) (msg : List Char)
    (s : Sample) (h : mkSample beacon test i msg = some s) : s.sampleIndex = i := by
  simp only [mkSample, Option.bind_eq_some] at h
  obtain ⟨vals, -, h⟩ := h
  split at h <;> split at h <;> simp_all <;> (subst h; rfl)

/-- The `sample_index` column produced by `parseSamplesAux` is the run of
consecutive positions starting at the initial `enumerate` index. -/
theorem parseSamplesAux_map_index (beacon : Bool) (test : String) :
    ∀ (msgs : List (List Char)) (i : ℕ) (data : List Sample),
      parseSamplesAux beacon test i msgs = some data →
      data.map (fun s => s.sampleIndex) = List.range' i data.length := by
  intro msgs
  induction msgs with
  | nil =>
    intro i data h
    simp only [parseSamplesAux, Option.some.injEq] at h
    subst h
    simp
  | cons m ms ih =>
    intro i data h
    simp only [parseSamplesAux, Option.bind_eq_some] at h
    obtain ⟨s, hs, h2⟩ := h
    rw [Option.map_eq_some'] at h2
    obtain ⟨rest, hrest, rfl⟩ := h2
    have hidx : s.sampleIndex = i := mkSample_sampleIndex beacon test i m s hs
    simp [hidx, ih (i + 1) rest hrest, List.range']

/-! ## Claim C6 -/

/-- Claim C6 (confirmed).  The numeric extractor matches only runs of
digits and periods, so a sign character is never part of a token
(first conjunct), every successfully converted token is non-negative
(second conjunct), and concretely a sample line reporting
`z=-0.005000` parses to a `Sample` whose `z` is `+0.005`
(third conjunct; `mkRat 5 1000 = 0.005`). -/
theorem c6_sign_never_captured :
    (∀ (msg tok : List Char), tok ∈ numRuns msg → '-' ∉ tok)
  ∧ (∀ (s : List Char) (q : ℚ), parseDecimal s = some q → 0 ≤ q)
  ∧ mkSample false "drift" 0 "// probe at 10.000,20.000 is z=-0.005000".toList
      = some ⟨"drift", 0, 10, 20, mkRat 5 1000⟩ := by
  refine ⟨?_, ?_, by decide⟩
  · intro msg tok htok hmem
    have hall := numRunsAux_all_num msg [] (by simp) tok htok '-' hmem
    simp [isNumChar] at hall
  · intro s q h
    simp only [parseDecimal] at h
    split at h
    · split at h
      · simp only [Option.some.injEq] at h
        subst h
        rw [Rat.mkRat_eq_div]
        positivity
      · exact absurd h (by simp)
    · split at h
      · split at h
        · simp only [Option.some.injEq] at h
          subst h
          rw [Rat.mkRat_eq_div]
          positivity
        · exact absurd h (by simp)
      · exact absurd h (by simp)

/-- Witness for C6: instantiates each universally quantified conjunct of
`c6_sign_never_captured` at the concrete line `z=-0.005000`. -/
theorem c6_sign_never_captured_witness :
    '-' ∉ "0.005000".toList
  ∧ (0 : ℚ) ≤ mkRat 5 1000
  ∧ mkSample false "drift" 0 "// probe at 10.000,20.000 is z=-0.005000".toList
      = some ⟨"drift", 0, 10, 20, mkRat 5 1000⟩ :=
  ⟨c6_sign_never_captured.1 "z=-0.005000".toList "0.005000".toList (by decide),
   c6_sign_never_captured.2.1 "0.005000".toList (mkRat 5 1000) (by decide),
   c6_sign_never_captured.2.2⟩

/-! ## Claim C8 -/

/-- Claim C8 (confirmed).  Numeric fields are consumed in appearance
order: a 3-field variant line with numbers `a, b, c` yields
`Sample{x=a, y=b, z=c}`; a Beacon-family (4-field) line with numbers
`a, b, c, d` yields `x=a, y=b, z=d` (third number ignored); and the
`sample_index` values of a parsed acquisition are exactly the 0-based
positions of the sample lines. -/
theorem c8_field_mapping :
    (∀ (test : String) (i : ℕ) (msg : List Char) (a b c : ℚ),
       extractNumbers msg = some [a, b, c] →
       mkSample false test i msg = some ⟨test, i, a, b, c⟩)
  ∧ (∀ (test : String) (i : ℕ) (msg : List Char) (a b c d : ℚ),
       extractNumbers msg = some [a, b, c, d] →
       mkSample true test i msg = some ⟨test, i, a, b, d⟩)
  ∧ (∀ (beacon : Bool) (test : String) (msgs : List (List Char)) (data : List Sample),
       parseSamples beacon test msgs = some data →
       data.map (fun s => s.sampleIndex) = List.range' 0 data.length) := by
  refine ⟨?_, ?_, ?_⟩
  · intro test i msg a b c h
    simp [mkSample, h]
  · intro test i msg a b c d h
    simp [mkSample, h]
  · intro beacon test msgs data h
    exact parseSamplesAux_map_index beacon test msgs 0 data h

/-- Witness for C8: a concrete 3-field line, a concrete 4-field line
(`z` takes the fourth number `0.250`, not the third `7.5`), and the
index column of a one-line acquisition. -/
theorem c8_field_mapping_witness :
    mkSample false "t3" 0 "// probe at 1.000,2.000 is z=0.125".toList
      = some ⟨"t3", 0, 1, 2, mkRat 125 1000⟩
  ∧ mkSample true "t4" 1 "// probe at 1.000,2.000 is 7.5 z=0.250".toList
      = some ⟨"t4", 1, 1, 2, mkRat 250 1000⟩
  ∧ ([(⟨"t3", 0, 1, 2, mkRat 125 1000⟩ : Sample)].map (fun s => s.sampleIndex)
      = List.range' 0 [(⟨"t3", 0, 1, 2, mkRat 125 1000⟩ : Sample)].length) :=
  ⟨c8_field_mapping.1 "t3" 0 _ 1 2 (mkRat 125 1000) (by decide),
   c8_field_mapping.2.1 "t4" 1 _ 1 2 (mkRat 75 10) (mkRat 250 1000) (by decide),
   c8_field_mapping.2.2 false "t3" ["// probe at 1.000,2.000 is z=0.125".toList]
     [⟨"t3", 0, 1, 2, mkRat 125 1000⟩] (by decide)⟩

/-! ## Claim C1 -/

/-- Claim C1, amended (corrected).  When the tailed log of an acquisition
contains at least one error line, the warning header and the first
error line are printed (the error is surfaced), but the acquisition
then kills the whole process instead of proceeding: the call
`self.printer.probe.check_error(msg)` raises `TypeError` (the method
is declared without `self`), which nothing catches, so the sample
lines of the same acquisition are never parsed. -/
theorem c1_error_line_halts_acquisition (beacon dropF keepF : Bool) (test : String)
    (start : ℚ) (raw : List LogEntry) (h : errMsgs start raw ≠ []) :
    (test_probe beacon dropF keepF test start raw).outcome = ProbeOutcome.uncaught "TypeError"
  ∧ (test_probe beacon dropF keepF test start raw).printed
      = [errHeader, (errMsgs start raw).headD []]
  ∧ isOk (test_probe beacon dropF keepF test start raw).outcome = false := by
  have hne : (errMsgs start raw).isEmpty = false := by
    cases hm : errMsgs start raw with
    | nil => exact absurd hm h
    | cons a l => rfl
  refine ⟨?_, ?_, ?_⟩ <;> simp [test_probe, hne, isOk]

/-- Witness for C1: a concrete acquisition window holding one error line
and one sample line. -/
theorem c1_error_line_halts_acquisition_witness :
    (test_probe false false false "t" 0
        [⟨1, "!! probe failed".toList⟩,
         ⟨2, "// probe at 10.000,20.000 is z=0.100".toList⟩]).outcome
      = ProbeOutcome.uncaught "TypeError"
  ∧ (test_probe false false false "t" 0
        [⟨1, "!! probe failed".toList⟩,
         ⟨2, "// probe at 10.000,20.000 is z=0.100".toList⟩]).printed
      = [errHeader, "!! probe failed".toList]
  ∧ isOk (test_probe false false false "t" 0
        [⟨1, "!! probe failed".toList⟩,
         ⟨2, "// probe at 10.000,20.000 is z=0.100".toList⟩]).outcome = false :=
  c1_error_line_halts_acquisition false false false "t" 0
    [⟨1, "!! probe failed".toList⟩,
     ⟨2, "// probe at 10.000,20.000 is z=0.100".toList⟩] (by decide)

/-- Counterexample to C1 as stated.  The claim says an error line never
terminates the process and sample parsing still proceeds; on this
concrete acquisition (one error line followed by a parseable sample
line) the outcome is an uncaught `TypeError` — the process dies and no
`Sample` is ever produced. -/
theorem c1_error_never_halts_cx :
    (test_probe false false false "t" 0
        [⟨1, "!! Error evaluating PROBE_ACCURACY".toList⟩,
         ⟨2, "// probe at 10.000,20.000 is z=0.100".toList⟩]).outcome
      = ProbeOutcome.uncaught "TypeError"
  ∧ isOk (test_probe false false false "t" 0
        [⟨1, "!! Error evaluating PROBE_ACCURACY".toList⟩,
         ⟨2, "// probe at 10.000,20.000 is z=0.100".toList⟩]).outcome = false := by
  decide

/-! ## Claim C3 -/

/-- Claim C3 (confirmed).  With the controller's "drop first result"
option enabled: if the caller did not request `keep_first`, the sample
with index 0 is discarded and the survivors keep their original
indices (in particular a 5-sample acquisition yields the indices
`[1, 2, 3, 4]`); if the caller did request `keep_first`, the full
parsed list — index 0 included — is returned. -/
theorem c3_drop_first_indices (beacon : Bool) (test : String) (start : ℚ)
    (raw : List LogEntry) (data : List Sample)
    (herr : errMsgs start raw = [])
    (hparse : parseSamples beacon test (sampleMsgs start raw) = some data)
    (hne : data ≠ []) :
    (test_probe beacon true false test start raw).outcome = ProbeOutcome.ok (data.drop 1)
  ∧ (test_probe beacon true true test start raw).outcome = ProbeOutcome.ok data
  ∧ (∀ s ∈ data.drop 1, s.sampleIndex ≠ 0)
  ∧ (data.length = 5 →
      (data.drop 1).map (fun s => s.sampleIndex) = [1, 2, 3, 4]) := by
  have hmap := parseSamplesAux_map_index beacon test (sampleMsgs start raw) 0 data hparse
  have hoempty : (errMsgs start raw).isEmpty = true := by simp [herr]
  have hdne : data.isEmpty = false := by
    cases data with
    | nil => exact absurd rfl hne
    | cons a l => rfl
  refine ⟨?_, ?_, ?_, ?_⟩
  · simp [test_probe, hoempty, hparse, hdne]
  · simp [test_probe, hoempty, hparse, hdne]
  · intro s hs
    have hmem : s.sampleIndex ∈ (data.map (fun s => s.sampleIndex)).drop 1 := by
      rw [← List.map_drop]
      exact List.mem_map_of_mem _ hs
    rw [hmap] at hmem
    cases data with
    | nil => exact absurd rfl hne
    | cons a l =>
      have hcons : List.range' 0 (a :: l).length = 0 :: List.range' 1 l.length := rfl
      rw [hcons] at hmem
      simp only [List.drop_succ_cons, List.drop_zero] at hmem
      have := (List.mem_range'_1.mp hmem).1
      omega
  · intro h5
    rw [List.map_drop, hmap, h5]
    rfl

/-- Witness for C3: a concrete 5-sample acquisition. -/
theorem c3_drop_first_indices_witness :
    (test_probe false true false "rep" 0
        [⟨1, "// probe at 1.000,2.000 is z=0.101".toList⟩,
         ⟨2, "// probe at 1.000,2.000 is z=0.101".toList⟩,
         ⟨3, "// probe at 1.000,2.000 is z=0.101".toList⟩,
         ⟨4, "// probe at 1.000,2.000 is z=0.101".toList⟩,
         ⟨5, "// probe at 1.000,2.000 is z=0.101".toList⟩]).outcome
      = ProbeOutcome.ok
          [⟨"rep", 1, 1, 2, mkRat 101 1000⟩, ⟨"rep", 2, 1, 2, mkRat 101 1000⟩,
           ⟨"rep", 3, 1, 2, mkRat 101 1000⟩, ⟨"rep", 4, 1, 2, mkRat 101 1000⟩]
  ∧ (test_probe false true true "rep" 0
        [⟨1, "// probe at 1.000,2.000 is z=0.101".toList⟩,
         ⟨2, "// probe at 1.000,2.000 is z=0.101".toList⟩,
         ⟨3, "// probe at 1.000,2.000 is z=0.101".toList⟩,
         ⟨4, "// probe at 1.000,2.000 is z=0.101".toList⟩,
         ⟨5, "// probe at 1.000,2.000 is z=0.101".toList⟩]).outcome
      = ProbeOutcome.ok
          [⟨"rep", 0, 1, 2, mkRat 101 1000⟩, ⟨"rep", 1, 1, 2, mkRat 101 1000⟩,
           ⟨"rep", 2, 1, 2, mkRat 101 1000⟩, ⟨"rep", 3, 1, 2, mkRat 101 1000⟩,
           ⟨"rep", 4, 1, 2, mkRat 101 1000⟩]
  ∧ (([⟨"rep", 0, 1, 2, mkRat 101 1000⟩, ⟨"rep", 1, 1, 2, mkRat 101 1000⟩,
       ⟨"rep", 2, 1, 2, mkRat 101 1000⟩, ⟨"rep", 3, 1, 2, mkRat 101 1000⟩,
       ⟨"rep", 4, 1, 2, mkRat 101 1000⟩] : List Sample).drop 1).map
        (fun s => s.sampleIndex) = [1, 2, 3, 4] := by
  have h := c3_drop_first_indices false "rep" 0
    [⟨1, "// probe at 1.000,2.000 is z=0.101".toList⟩,
     ⟨2, "// probe at 1.000,2.000 is z=0.101".toList⟩,
     ⟨3, "// probe at 1.000,2.000 is z=0.101".toList⟩,
     ⟨4, "// probe at 1.000,2.000 is z=0.101".toList⟩,
     ⟨5, "// probe at 1.000,2.000 is z=0.101".toList⟩]
    [⟨"rep", 0, 1, 2, mkRat 101 1000⟩, ⟨"rep", 1, 1, 2, mkRat 101 1000⟩,
     ⟨"rep", 2, 1, 2, mkRat 101 1000⟩, ⟨"rep", 3, 1, 2, mkRat 101 1000⟩,
     ⟨"rep", 4, 1, 2, mkRat 101 1000⟩]
    (by decide) (by decide) (by decide)
  exact ⟨h.1, h.2.1, h.2.2.2 (by decide)⟩

/-! ## Claim C5 -/

/-- Claim C5, amended (corrected).  The zero-sample check runs after
per-line parsing but BEFORE the drop-first policy: when the window
holds no sample lines at all, the process exits with status 1 (no
summary, no retry) — first conjunct; but when exactly one sample is
parsed and the drop-first policy then removes it, the acquisition
returns an empty `TestRun` to its caller instead of exiting — second
conjunct. -/
theorem c5_zero_samples_fatal_before_drop :
    (∀ (beacon dropF keepF : Bool) (test : String) (start : ℚ) (raw : List LogEntry),
       errMsgs start raw = [] → sampleMsgs start raw = [] →
       (test_probe beacon dropF keepF test start raw).outcome = ProbeOutcome.sysExit 1
       ∧ (test_probe beacon dropF keepF test start raw).printed
           = [noMeasureMsg1, noMeasureMsg2])
  ∧ (∀ (beacon : Bool) (test : String) (start : ℚ) (raw : List LogEntry) (s : Sample),
       errMsgs start raw = [] →
       parseSamples beacon test (sampleMsgs start raw) = some [s] →
       (test_probe beacon true false test start raw).outcome = ProbeOutcome.ok []) := by
  constructor
  · intro beacon dropF keepF test start raw herr hsm
    constructor <;>
      simp [test_probe, herr, hsm, parseSamples, parseSamplesAux]
  · intro beacon test start raw s herr hparse
    simp [test_probe, herr, hparse]

/-- Witness for C5: a window with only stale entries exits with status 1;
a one-sample window with drop-first enabled returns an empty run. -/
theorem c5_zero_samples_fatal_before_drop_witness :
    (test_probe false false false "d" 1
        [⟨0, "// probe at 1.000,2.000 is z=0.101".toList⟩]).outcome
      = ProbeOutcome.sysExit 1
  ∧ (test_probe false true false "d" 0
        [⟨2, "// probe at 1.000,2.000 is z=0.101".toList⟩]).outcome
      = ProbeOutcome.ok [] :=
  ⟨(c5_zero_samples_fatal_before_drop.1 false false false "d" 1
      [⟨0, "// probe at 1.000,2.000 is z=0.101".toList⟩] (by decide) (by decide)).1,
   c5_zero_samples_fatal_before_drop.2 false "d" 0
      [⟨2, "// probe at 1.000,2.000 is z=0.101".toList⟩]
      ⟨"d", 0, 1, 2, mkRat 101 1000⟩ (by decide) (by decide)⟩

/-- Counterexample to C5 as stated.  The claim says an acquisition never
returns an empty `TestRun` (zero samples after the drop-first step are
claimed fatal); on this concrete acquisition — one parsed sample,
drop-first enabled, `keep_first` false — the function returns
`ok []` and does not exit. -/
theorem c5_empty_testrun_cx :
    (test_probe false true false "drift" 0
        [⟨1, "// probe at 1.000,2.000 is z=0.102".toList⟩]).outcome
      = ProbeOutcome.ok []
  ∧ (test_probe false true false "drift" 0
        [⟨1, "// probe at 1.000,2.000 is z=0.102".toList⟩]).outcome
      ≠ ProbeOutcome.sysExit 1 := by
  decide

/-! ## Claim C2 -/

/-- Claim C2 (code bug; evaluation of the code at the failing input).
The claim (and the scenario's own banner, "Take R probe_accuracy
tests") expects each round to consist of 4 random moves, a return to
center, then ONE 10-sample acquisition labeled by the round number —
hence `R` acquisitions labeled `1..R`.  The code instead reuses the
loop variable `i` for the inner `for i in range(4)` loop and performs
the acquisition INSIDE it: with `repeatability = 2` the trace below
holds 8 acquisitions, labeled `Test #01`..`Test #04` twice and never
by the round number. -/
theorem c2_repeatability_code_eval :
    test_repeatability 2 10 =
      [RepEvent.m117 "1/2 repeatability",
       RepEvent.moveRandom, RepEvent.acquire 10 "01: center 10 samples" "Test #01",
       RepEvent.moveRandom, RepEvent.acquire 10 "02: center 10 samples" "Test #02",
       RepEvent.moveRandom, RepEvent.acquire 10 "03: center 10 samples" "Test #03",
       RepEvent.moveRandom, RepEvent.acquire 10 "04: center 10 samples" "Test #04",
       RepEvent.m117 "2/2 repeatability",
       RepEvent.moveRandom, RepEvent.acquire 10 "01: center 10 samples" "Test #01",
       RepEvent.moveRandom, RepEvent.acquire 10 "02: center 10 samples" "Test #02",
       RepEvent.moveRandom, RepEvent.acquire 10 "03: center 10 samples" "Test #03",
       RepEvent.moveRandom, RepEvent.acquire 10 "04: center 10 samples" "Test #04"]
  ∧ (test_repeatability 2 10).countP
      (fun e => match e with
        | RepEvent.acquire _ _ _ => true
        | _ => false) = 8 := by
  decide

/-! ## Claim C4 -/

/-- Claim C4, amended (corrected).  Speed-sweep inputs with `step ≤ 0`,
`start < 1` or `stop < start` are rejected, and `stop ≥ 35` answered
`n` aborts; in every such case no leveling, locking, motion or probe
command is issued — but the abort path is
`print("Invalid user input. Exiting..."); sys.exit(0)`: the whole
program terminates (status 0), so the suite-level tables are never
produced; it does not merely skip the scenario. -/
theorem c4_speedtest_invalid_input_exits_program
    (corner repeatab drift fd : Bool) (start stop step : ℚ) (confirm : Bool)
    (h : step ≤ 0 ∨ start < 1 ∨ stop < start ∨ ((35 : ℚ) ≤ stop ∧ confirm = false)) :
    test_speedtest fd start stop step confirm = ([], some 0)
  ∧ runSuite ⟨corner, repeatab, drift, true, fd, start, stop, step, confirm⟩
      = SuiteOutcome.exited 0 := by
  have hchk : speedcheck start stop step confirm = false := by
    cases hb : speedcheck start stop step confirm with
    | false => rfl
    | true =>
      exfalso
      simp only [speedcheck, Bool.and_eq_true, Bool.or_eq_true, Bool.not_eq_true',
        decide_eq_true_eq, decide_eq_false_iff_not] at hb
      obtain ⟨⟨⟨h1, h2⟩, h3⟩, h4⟩ := hb
      rcases h with h | h | h | ⟨h35, hc⟩
      · exact absurd h1 (not_lt.mpr h)
      · exact absurd h2 (not_le.mpr h)
      · exact absurd h3 (not_le.mpr h)
      · rcases h4 with h4 | h4
        · exact h4 h35
        · rw [hc] at h4
          exact Bool.false_ne_true h4
  constructor
  · simp [test_speedtest, hchk]
  · simp [runSuite, test_speedtest, hchk]

/-- Witness for C4: a plan running drift then speed-sweep with `step = 0`
exits the whole program with status 0 and issues no speed-sweep
command. -/
theorem c4_speedtest_invalid_input_exits_program_witness :
    test_speedtest false 1 10 0 true = ([], some 0)
  ∧ runSuite ⟨false, false, true, true, false, 1, 10, 0, true⟩ = SuiteOutcome.exited 0 :=
  c4_speedtest_invalid_input_exits_program false false true false 1 10 0 true
    (Or.inl (le_refl 0))

/-- Counterexample to C4 as stated.  The claim says an invalid input
aborts only the speed-sweep scenario while the remaining suite
(including the suite-level tables) still runs; on this concrete plan —
drift enabled, then speed-sweep with `step = 0` and a declined
high-speed confirmation — the run outcome is `exited 0`: the whole
program terminated and the suite-level tables (the `completed` state)
were never reached. -/
theorem c4_scenario_only_abort_cx :
    test_speedtest false 1 50 0 false = ([], some 0)
  ∧ runSuite ⟨false, false, true, true, false, 1, 50, 0, false⟩ = SuiteOutcome.exited 0
  ∧ runSuite ⟨false, false, true, true, false, 1, 50, 0, false⟩
      ≠ SuiteOutcome.completed 2 := by
  decide

/-! ## Claim C7 -/

/-- Claim C7 (code bug — see the doc comment of `get_bed_corners`: the
shipped file is not importable because of the mis-indented `except:`
at line 367 inside this very function; the property below holds of the
syntactically unambiguous remainder of the function).  Every corner
equals the corresponding mesh bound minus the probe offset, in the
fixed order `[(xmin,ymax), (xmax,ymax), (xmin,ymin), (xmax,ymin)]`;
concretely, mesh bounds `(0,0)`–`(300,300)` with zero offsets give
`[(0,300), (300,300), (0,0), (300,0)]`, and a bed whose axis bounds
are `(0,0)`–`(300,300)` has center `(150,150)`. -/
theorem c7_bed_corners_formula
    (xoff yoff : ℚ) (meshMin meshMax : List Char) (sxmin symin sxmax symax : List Char)
    (qxmin qymin qxmax qymax : ℚ)
    (hmin : numRuns meshMin = [sxmin, symin]) (hmax : numRuns meshMax = [sxmax, symax])
    (h1 : parseDecimal sxmin = some qxmin) (h2 : parseDecimal symin = some qymin)
    (h3 : parseDecimal sxmax = some qxmax) (h4 : parseDecimal symax = some qymax) :
    get_bed_corners xoff yoff meshMin meshMax
      = some [(qxmin - xoff, qymax - yoff), (qxmax - xoff, qymax - yoff),
              (qxmin - xoff, qymin - yoff), (qxmax - xoff, qymin - yoff)]
  ∧ get_bed_corners 0 0 "0,0".toList "300,300".toList
      = some [((0 : ℚ), (300 : ℚ)), (300, 300), (0, 0), (300, 0)]
  ∧ get_bed_center (0, 0) (300, 300) = (150, 150) := by
  refine ⟨?_, ?_, ?_⟩
  · simp [get_bed_corners, hmin, hmax, h1, h2, h3, h4]
  · have e1 : numRuns "0,0".toList = ["0".toList, "0".toList] := by decide
    have e2 : numRuns "300,300".toList = ["300".toList, "300".toList] := by decide
    have p0 : parseDecimal "0".toList = some (mkRat 0 1) := by decide
    have p300 : parseDecimal "300".toList = some (mkRat 300 1) := by decide
    simp only [get_bed_corners, e1, e2, p0, p300, Option.some.injEq]
    norm_num [Rat.mkRat_eq_div]
  · simp only [get_bed_center]
    norm_num

/-- Witness for C7: the general corner formula applied to the concrete
mesh strings `"10.5,20"` / `"30,40.25"` with offsets `(1, 2)`. -/
theorem c7_bed_corners_formula_witness :
    get_bed_corners 1 2 "10.5,20".toList "30,40.25".toList
      = some [(mkRat 105 10 - 1, mkRat 4025 100 - 2), (mkRat 30 1 - 1, mkRat 4025 100 - 2),
              (mkRat 105 10 - 1, mkRat 20 1 - 2), (mkRat 30 1 - 1, mkRat 20 1 - 2)]
  ∧ get_bed_corners 0 0 "0,0".toList "300,300".toList
      = some [((0 : ℚ), (300 : ℚ)), (300, 300), (0, 0), (300, 0)]
  ∧ get_bed_center (0, 0) (300, 300) = (150, 150) := by
  have h := c7_bed_corners_formula 1 2 "10.5,20".toList "30,40.25".toList
    "10.5".toList "20".toList "30".toList "40.25".toList
    (mkRat 105 10) (mkRat 20 1) (mkRat 30 1) (mkRat 4025 100)
    (by decide) (by decide) (by decide) (by decide) (by decide) (by decide)
  exact h

/-! ## Claim C9 -/

/-- Claim C9 (confirmed).  For every `move` call without an explicit `z`:
the emitted command sequence is exactly the safe-height move (`G90`,
`G0 Z<safe>`) followed by the requested lateral move (`G90`,
`G0 X.. Y.. F99999`), so the safe-height command comes strictly first;
the resolved height is memoized into `self.safe_z`; resolution reuses
a truthy memo, consults the variant source otherwise, and falls back
to the interactive prompt when that is falsy too; and under the
z-tracking checker the lateral command never executes below the
resolved safe height, whatever the initial height `z0` was. -/
theorem c9_safe_z_before_lateral (cfg : PrinterCfg) (st : PState) (x y z0 : Option ℚ) :
    (move cfg st x y none).1
      = [GCmd.g90, GCmd.g0 none none (some (resolve_safe_z cfg st).1) none,
         GCmd.g90, GCmd.g0 x y none (some 99999)]
  ∧ (move cfg st x y none).2.safe_z = some (resolve_safe_z cfg st).1
  ∧ (resolve_safe_z cfg st).1
      = (if pyTruthy st.safe_z then st.safe_z.getD 0
         else if pyTruthy (variantSafeZ cfg) then (variantSafeZ cfg).getD 0
         else cfg.prompt_safe_z)
  ∧ checkLateral (resolve_safe_z cfg st).1 z0 (move cfg st x y none).1 = true := by
  have hz : pyTruthy none = false := rfl
  refine ⟨?_, ?_, ?_, ?_⟩
  · simp [move, hz, move_to_safe_z, pyMove]
  · by_cases hm : pyTruthy st.safe_z
    · cases hsz : st.safe_z with
      | none => rw [hsz] at hm; exact absurd hm (by simp [pyTruthy])
      | some v =>
        have hv : pyTruthy (some v) = true := hsz ▸ hm
        simp [move, hz, move_to_safe_z, pyMove, resolve_safe_z, hsz, hv]
    · simp [move, hz, move_to_safe_z, pyMove, resolve_safe_z, hm]
  · by_cases hm : pyTruthy st.safe_z <;> simp [resolve_safe_z, hm]
  · have hcmds : (move cfg st x y none).1
        = [GCmd.g90, GCmd.g0 none none (some (resolve_safe_z cfg st).1) none,
           GCmd.g90, GCmd.g0 x y none (some 99999)] := by
      simp [move, hz, move_to_safe_z, pyMove]
    rw [hcmds]
    cases hxy : (x.isSome || y.isSome) <;>
      simp [checkLateral, hxy, le_refl]

/-! ## Claim C10 -/

/-- Helper for C10: under the no-suppression hypotheses (no probe-hardware
section exists with a falsy backlash value), the nested `try`/`except`
ladder agrees with the flat priority chain of the spec. -/
theorem detectBeaconChain_eq_spec (c : DetectConfig)
    (h1 : c.idm_backlash ≠ some false) (h2 : c.beacon_backlash ≠ some false)
    (h3 : c.cartographer_backlash ≠ some false) :
    detectBeaconChain c
      = (if c.idm_backlash = some true ∨ c.beacon_backlash = some true
            ∨ c.cartographer_backlash = some true then ⟨false, false, false, true⟩
         else if (match c.endstop_pin with
                  | some pin => tapPinMatch pin.toList
                  | none => false) then ⟨false, false, true, false⟩
         else noneFlags) := by
  obtain ⟨dx, pt, idm, bea, car, pin⟩ := c
  simp only at h1 h2 h3 ⊢
  rcases idm with _ | ib
  · rcases bea with _ | bb
    · rcases car with _ | cb
      · rcases pin with _ | p
        · simp [detectBeaconChain]
        · have hfalse : ¬((none : Option Bool) = some true
              ∨ (none : Option Bool) = some true ∨ (none : Option Bool) = some true) := by
            simp
          simp only [detectBeaconChain]
          rw [if_neg hfalse]
      · cases cb
        · exact absurd rfl h3
        · simp [detectBeaconChain]
    · cases bb
      · exact absurd rfl h2
      · simp [detectBeaconChain]
  · cases ib
    · exact absurd rfl h1
    · simp [detectBeaconChain]

/-- Claim C10, amended (corrected).  At most one variant flag is ever set
(first conjunct); when no flag is set, `main` refuses to run tests and
exits with status 1 before any motion (third conjunct); and detection
agrees with the claimed first-match priority order Klicky, Klippain,
Beacon-family, Tap PROVIDED no probe-hardware config section exists
with a falsy backlash value (second conjunct) — when one does, the
nested `except:` ladder stops early, skipping the remaining
Beacon-family sections and the Tap check (see the counterexample). -/
theorem c10_detect_amended :
    (∀ c : DetectConfig, flagCount (detect c) ≤ 1)
  ∧ (∀ c : DetectConfig,
       c.idm_backlash ≠ some false → c.beacon_backlash ≠ some false →
       c.cartographer_backlash ≠ some false →
       detect c = detectSpec c)
  ∧ (∀ c : DetectConfig, detect c = noneFlags → mainGate (detect c) = some 1) := by
  refine ⟨?_, ?_, ?_⟩
  · intro c
    unfold detect detectBeaconChain
    repeat' split <;> try decide
  · intro c h1 h2 h3
    have hchain := detectBeaconChain_eq_spec c h1 h2 h3
    obtain ⟨dx, pt, idm, bea, car, pin⟩ := c
    rcases dx with _ | db
    · -- docklocation lookup raised
      rcases pt with _ | s
      · simp only [detect, detectSpec]
        simp only [reduceCtorEq, if_false]
        exact hchain
      · by_cases hs : s = "dockable"
        · subst hs
          simp [detect, detectSpec]
        · simp only [detect, detectSpec]
          rw [if_neg (by simp [hs]), if_neg (by simp), if_neg (by simp [hs])]
          exact hchain
    · cases db
      · -- docklocation exists but falsy
        rcases pt with _ | s
        · simp only [detect, detectSpec]
          simp only [reduceCtorEq, if_false]
          exact hchain
        · by_cases hs : s = "dockable"
          · subst hs
            simp [detect, detectSpec]
          · simp only [detect, detectSpec]
            rw [if_neg (by simp [hs]), if_neg (by simp), if_neg (by simp [hs])]
            exact hchain
      · simp [detect, detectSpec]
  · intro c h
    rw [h]
    rfl

/-- Witness for C10: a Klippain controller with no suppressing section;
detection agrees with the spec's priority chain and the no-probe gate
fires on the all-`none` configuration. -/
theorem c10_detect_amended_witness :
    flagCount (detect ⟨none, some "dockable", none, none, none, none⟩) ≤ 1
  ∧ detect ⟨none, some "dockable", none, none, none, none⟩
      = detectSpec ⟨none, some "dockable", none, none, none, none⟩
  ∧ mainGate (detect ⟨none, none, none, none, none, none⟩) = some 1 :=
  ⟨c10_detect_amended.1 ⟨none, some "dockable", none, none, none, none⟩,
   c10_detect_amended.2.1 ⟨none, some "dockable", none, none, none, none⟩
     (by decide) (by decide) (by decide),
   c10_detect_amended.2.2 ⟨none, none, none, none, none, none⟩ (by decide)⟩

/-- Counterexample to C10 as stated.  On a controller whose `[idm]`
section exists with a falsy `backlash_comp` while the Z endstop is
`probe:z_virtual_endstop`, the claimed first-match priority order
(heuristic failures treated as no match) selects Tap, but `_detect`
returns no variant at all: the falsy section ends the `try`/`except`
ladder before the `cartographer` and Tap checks can run. -/
theorem c10_detect_priority_cx :
    detect ⟨none, none, some false, none, none, some "probe:z_virtual_endstop"⟩
      = noneFlags
  ∧ detectSpec ⟨none, none, some false, none, none, some "probe:z_virtual_endstop"⟩
      = ⟨false, false, true, false⟩
  ∧ noneFlags ≠ (⟨false, false, true, false⟩ : ProbeFlags) := by
  decide

end ProbeAccuracy
